import Mathlib

/-!
Verification of the CityFix municipal incident-management core: a shallow
embedding of the severity/deadline engine, the read-time reconcile pass, the
duplicate-candidate criteria, the merge execution and the reporter trust
scorer, with theorems settling the specified properties.

Conventions of the embedding:
* JavaScript dynamic timestamp values are modelled by `JSTime`; a JS `Date`
  result is `Option (Option Int)` (`none` = `null`, `some none` = Invalid Date,
  `some (some ms)` = a valid instant in epoch milliseconds).
* The external incident-type catalog lookup (`determineSeverityFromType`) and
  the JS date-string parser (`new Date(string)`) are collaborators outside the
  repository; functions are parameterised over them (`cat`, `parse`).
* The great-circle distance `calculateDistance` is real-valued library math;
  the duplicate-candidate checkers take it as a rational-valued parameter
  `dist`, since the claims depend only on threshold comparisons.
-/

namespace CityFix

/-- A dynamically-typed JS value sitting in a timestamp field: a Firestore
`Timestamp` (carrying its instant in epoch ms), a plain `{seconds}` object, a
native `Date` (`none` ms models an Invalid Date), a string, or any other
shape. -/
inductive JSTime where
  | fsTimestamp (ms : Int)
  | secondsShape (seconds : Int)
  | jsDate (ms : Option Int)
  | str (s : String)
  | otherVal
  deriving DecidableEq, Repr

/-- JS truthiness of an optional string field: `undefined`/`null` and `""` are
falsy. -/
def truthyStr : Option String → Bool
  | none => false
  | some s => !s.isEmpty

/-- JS truthiness of a `JSTime` value: objects are truthy (an Invalid `Date`
included); the empty string is falsy. -/
def jsTruthyTime : JSTime → Bool
  | .str s => !s.isEmpty
  | _ => true

/-- Result of a JS computation producing `Date | null`: `none` = `null`,
`some none` = Invalid Date, `some (some ms)` = valid instant. -/
abbrev JSDateOpt := Option (Option Int)

/-- The result of the JS bracket lookup `FALLBACK_TIMEFRAMES[severity]`:
one of the four own numeric entries, a truthy non-numeric value reached
through the prototype chain (an `Object.prototype` method, or the
`__proto__` object), or `undefined`. -/
inductive TimeframeLookup where
  | num (hours : Int)
  | inherited
  | undefinedVal
  deriving DecidableEq, Repr

/-- The property names present on `Object.prototype`, which a bracket lookup
on a plain object literal reaches when the key is not an own property. Every
one of them yields a truthy, non-numeric value (a function, or the
`__proto__` object). -/
def objectPrototypeKeys : List String :=
  ["constructor", "hasOwnProperty", "isPrototypeOf", "propertyIsEnumerable",
   "toLocaleString", "toString", "valueOf", "__proto__",
   "__defineGetter__", "__defineSetter__", "__lookupGetter__",
   "__lookupSetter__"]

/-- Severity timeframe lookup of `incidentUtils.ts`
(`FALLBACK_TIMEFRAMES[severity]`): the four own keys give their hour values;
any `Object.prototype` property name gives a truthy inherited value; every
other key gives `undefined`. -/
def FALLBACK_TIMEFRAMES (severity : String) : TimeframeLookup :=
  if severity = "Low" then .num 168
  else if severity = "Medium" then .num 120
  else if severity = "High" then .num 72
  else if severity = "Critical" then .num 24
  else if severity ∈ objectPrototypeKeys then .inherited
  else .undefinedVal

/-- `FALLBACK_TIMEFRAMES[severity] || 24` as it feeds the deadline
arithmetic: an own entry is used as is; `undefined` is falsy, so the default
24 applies; an inherited `Object.prototype` value is truthy, so `|| 24` does
not fire and the later multiplication coerces it to NaN (`none`). -/
def timeframeHoursOf (severity : String) : Option Int :=
  match FALLBACK_TIMEFRAMES severity with
  | .num h => some h
  | .inherited => none
  | .undefinedVal => some 24

/-- The creation-date coercion chain at the top of `calculateDeadline`:
falsy input gives `null`; then `instanceof Timestamp`, truthy `.seconds`,
`instanceof Date`, `typeof string` (via the external parser `parse`,
an unparseable string giving an Invalid Date), else `null`. -/
def creationDateOf (parse : String → Option Int) :
    Option JSTime → JSDateOpt
  | none => none
  | some t =>
    if ¬ jsTruthyTime t then none
    else
      match t with
      | .fsTimestamp ms => some (some ms)
      | .secondsShape n => if n ≠ 0 then some (some (n * 1000)) else none
      | .jsDate ms => some ms
      | .str s => some (parse s)
      | .otherVal => none

/-- `calculateDeadline` of `incidentUtils.ts`: coerce the creation value to a
date, then add `timeframeHours * 60 * 60 * 1000` milliseconds. NaN from
either side — an Invalid-Date creation instant, or a non-numeric timeframe
coming off the prototype chain — makes the resulting `Date` invalid. -/
def calculateDeadline (parse : String → Option Int)
    (creationTimestamp : Option JSTime) (severity : String) : JSDateOpt :=
  match creationDateOf parse creationTimestamp with
  | none => none
  | some ms =>
    some (match ms, timeframeHoursOf severity with
      | some t, some h => some (t + h * 3600000)
      | _, _ => none)

/-- The terminal-status test
(`status === 'Completed' || status === 'Merged'`). -/
def isTerminalStatus (s : String) : Bool :=
  s == "Completed" || s == "Merged"

/-- `isOverdue` of `incidentUtils.ts`: false for Completed/Merged; false for a
falsy deadline; then the coercion chain (`Timestamp`, truthy `.seconds`,
`instanceof Date`, anything else giving false — strings included) and the
strict comparison `new Date() > deadlineDate` (false against NaN). -/
def isOverdue (now : Int) (deadline : Option JSTime) (status : String) : Bool :=
  if isTerminalStatus status then false
  else
    match deadline with
    | none => false
    | some dl =>
      if ¬ jsTruthyTime dl then false
      else
        match dl with
        | .fsTimestamp ms => now > ms
        | .secondsShape n => if n ≠ 0 then now > n * 1000 else false
        | .jsDate (some ms) => now > ms
        | .jsDate none => false
        | .str _ => false
        | .otherVal => false

/-- Repackage a computed `Date | null` as a `JSTime` field value (the computed
deadline is passed on as a native `Date`). -/
def jsdToTime (d : JSDateOpt) : Option JSTime :=
  d.map (fun ms => JSTime.jsDate ms)

/-- `severity = d.severity || 'Low'`: the stored severity when truthy, the
default `Low` otherwise. -/
def sevOrLow (sevField : Option String) : String :=
  match sevField with
  | some s => if s.isEmpty then "Low" else s
  | none => "Low"

/-- The severity derivation at the top of `fetchIncident` (IncidentDetail.tsx):
`shouldUpdateSeverity = !d.severity || d.severity === 'Low'`, then, when
updating and the incident type is truthy, the catalog lookup
`determineSeverityFromType` (the parameter `cat`) replaces
`d.severity || 'Low'`. -/
def computeSeverity (cat : String → String)
    (sevField typeField : Option String) : String :=
  if (!truthyStr sevField || sevField == some "Low") && truthyStr typeField then
    cat (typeField.getD "")
  else sevOrLow sevField

/-- The fields of a stored incident document that the read-time reconcile pass
of `fetchIncident` consults or writes. -/
structure IncidentDoc where
  severity : Option String
  incidentType : Option String
  timestamp : Option JSTime
  deadline : Option JSTime
  reportState : Option String
  isOverdue : Option Bool
  deriving DecidableEq, Repr

/-- The partial update (`updates` object) that `fetchIncident` sends with
`updateDoc`; all fields `none` when no update is needed. A written deadline is
`Timestamp.fromDate` of the computed instant. -/
structure ReconPatch where
  isOverdue : Option Bool := none
  reportState : Option String := none
  severity : Option String := none
  deadline : Option Int := none
  deriving DecidableEq, Repr

/-- The empty patch: `fetchIncident` performed no write. -/
def ReconPatch.empty : ReconPatch := {}

/-- The existing-deadline coercion inside `fetchIncident`: only the
`Timestamp` and truthy-`.seconds` shapes are recognised; anything else leaves
the existing deadline unread. -/
def existingDeadlineMs : JSTime → Option Int
  | .fsTimestamp ms => some ms
  | .secondsShape n => if n ≠ 0 then some (n * 1000) else none
  | _ => none

/-- The deadline-drift trigger of `fetchIncident`: with both the computed and
stored deadlines truthy, an update is needed when the recognised stored
instant drifts more than one hour from the computed one (a NaN difference
comparing false); with only the computed deadline truthy, an update is always
needed. -/
def deadlineNeedsUpdate (computed : JSDateOpt) (stored : Option JSTime) : Bool :=
  match computed, stored with
  | none, _ => false
  | some dlv, some ex =>
    if jsTruthyTime ex then
      match existingDeadlineMs ex, dlv with
      | some e, some m => decide ((e - m).natAbs > 3600000)
      | _, _ => false
    else true
  | some _, none => true

/-- `status = d.reportState || 'New'`. -/
def status0Of (d : IncidentDoc) : String :=
  match d.reportState with
  | some s => if s.isEmpty then "New" else s
  | none => "New"

/-- The `severity` local of `fetchIncident` after the catalog step. -/
def reconSeverity (cat : String → String) (d : IncidentDoc) : String :=
  computeSeverity cat d.severity d.incidentType

/-- The `deadline` local of `fetchIncident`
(`calculateDeadline(d.timestamp, severity)`). -/
def reconDeadline (cat : String → String) (parse : String → Option Int)
    (d : IncidentDoc) : JSDateOpt :=
  calculateDeadline parse d.timestamp (reconSeverity cat d)

/-- The `shouldBeOverdue` local of `fetchIncident`
(`isOverdue(deadline, status)` on the freshly computed deadline). -/
def reconShouldOv (cat : String → String) (parse : String → Option Int)
    (now : Int) (d : IncidentDoc) : Bool :=
  isOverdue now (jsdToTime (reconDeadline cat parse d)) (status0Of d)

/-- The `isOverdueFlag` local: false for terminal statuses, the computed
overdue state otherwise. -/
def reconFlag (cat : String → String) (parse : String → Option Int)
    (now : Int) (d : IncidentDoc) : Bool :=
  if isTerminalStatus (status0Of d) then false
  else reconShouldOv cat parse now d

/-- The final `status` local: forced to `Overdue` when overdue, reverted to
`In Progress` when no longer overdue, untouched when terminal. -/
def reconStatus1 (cat : String → String) (parse : String → Option Int)
    (now : Int) (d : IncidentDoc) : String :=
  if isTerminalStatus (status0Of d) then status0Of d
  else if reconShouldOv cat parse now d then "Overdue"
  else if status0Of d == "Overdue" then "In Progress"
  else status0Of d

/-- `needsUpdate` trigger: `severity !== d.severity`. -/
def reconNuSev (cat : String → String) (d : IncidentDoc) : Bool :=
  some (reconSeverity cat d) != d.severity

/-- `needsUpdate` trigger: deadline drift. -/
def reconNuDl (cat : String → String) (parse : String → Option Int)
    (d : IncidentDoc) : Bool :=
  deadlineNeedsUpdate (reconDeadline cat parse d) d.deadline

/-- `needsUpdate` trigger: `d.isOverdue !== shouldBeOverdue`, only checked on
non-terminal statuses. -/
def reconNuOv (cat : String → String) (parse : String → Option Int)
    (now : Int) (d : IncidentDoc) : Bool :=
  !isTerminalStatus (status0Of d) &&
    (d.isOverdue != some (reconShouldOv cat parse now d))

/-- `needsUpdate` trigger: either status transition fired. -/
def reconNuStatus (cat : String → String) (parse : String → Option Int)
    (now : Int) (d : IncidentDoc) : Bool :=
  !isTerminalStatus (status0Of d) &&
    ((reconShouldOv cat parse now d && status0Of d != "Overdue") ||
     (!reconShouldOv cat parse now d && status0Of d == "Overdue"))

/-- The accumulated `needsUpdate` flag of `fetchIncident`. -/
def reconNeeds (cat : String → String) (parse : String → Option Int)
    (now : Int) (d : IncidentDoc) : Bool :=
  reconNuSev cat d || reconNuDl cat parse d || reconNuOv cat parse now d ||
    reconNuStatus cat parse now d

/-- The `updates` object `fetchIncident` builds when `needsUpdate` holds:
always `isOverdue` and `reportState`; `severity` only when it changed;
`deadline` whenever the computed deadline is truthy. -/
def reconPatchOf (cat : String → String) (parse : String → Option Int)
    (now : Int) (d : IncidentDoc) : ReconPatch :=
  { isOverdue := some (reconFlag cat parse now d)
    reportState := some (reconStatus1 cat parse now d)
    severity :=
      if reconNuSev cat d then some (reconSeverity cat d) else none
    deadline :=
      match reconDeadline cat parse d with
      | some (some m) => some m
      | _ => none }

/-- The read-time reconcile pass of `fetchIncident` (IncidentDetail.tsx),
with the external catalog `cat`, date parser `parse` and the current time
`now`: recompute severity and deadline, decide overdue, force `Overdue` or
revert to `In Progress`, and return the partial update. `none` models the one
failing path: a needed write of an Invalid-Date deadline
(`Timestamp.fromDate` throws). -/
def reconcile (cat : String → String) (parse : String → Option Int)
    (now : Int) (d : IncidentDoc) : Option ReconPatch :=
  if reconNeeds cat parse now d then
    match reconDeadline cat parse d with
    | some none => none
    | _ => some (reconPatchOf cat parse now d)
  else some ReconPatch.empty

/-- Apply a reconcile patch to the stored document (the effect of the
`updateDoc` partial merge); a written deadline lands as a Firestore
`Timestamp`. -/
def applyPatch (p : ReconPatch) (d : IncidentDoc) : IncidentDoc :=
  { d with
    severity := match p.severity with | some s => some s | none => d.severity
    reportState :=
      match p.reportState with | some s => some s | none => d.reportState
    isOverdue := match p.isOverdue with | some b => some b | none => d.isOverdue
    deadline :=
      match p.deadline with
      | some m => some (JSTime.fsTimestamp m)
      | none => d.deadline }

/-- The whitespace class of the JS regexes `\s` used by
`checkDescriptionSimilarity` (ASCII portion). -/
def jsIsSpace (c : Char) : Bool :=
  c = ' ' || c = '\t' || c = '\n' || c = '\r' ||
  c = Char.ofNat 11 || c = Char.ofNat 12

/-- The word-character class of the JS regex `\w`: `[A-Za-z0-9_]`. -/
def jsIsWordChar (c : Char) : Bool :=
  c.isAlphanum || c = '_'

/-- `desc.toLowerCase().replace(/[^\w\s]/g, '')` on a character list. -/
def cleanDesc (s : List Char) : List Char :=
  (s.map Char.toLower).filter (fun c => jsIsWordChar c || jsIsSpace c)

/-- Splitting on whitespace characters, keeping empty chunks (the `/\s+/`
split differs only by empty chunks, which the length filter removes). -/
def splitWords : List Char → List Char → List (List Char)
  | [], acc => [acc.reverse]
  | c :: cs, acc =>
    if jsIsSpace c then acc.reverse :: splitWords cs []
    else splitWords cs (c :: acc)

/-- The token list of one cleaned description: chunks of more than three
characters (`.split(/\s+/).filter(w => w.length > 3)`). -/
def wordTokens (cleaned : List Char) : List (List Char) :=
  (splitWords cleaned []).filter (fun w => w.length > 3)

/-- `matchCount`: the number of entries of `w1` (multiplicity counted on the
first argument's side) that occur in `w2`. -/
def matchCountOf (w1 w2 : List (List Char)) : Nat :=
  (w1.filter (fun w => decide (w ∈ w2))).length

/-- `String.prototype.includes`: `needle` occurs contiguously in `hay`
(always true for an empty needle). -/
def jsIncludes (hay needle : List Char) : Bool :=
  decide (needle <:+: hay)

/-- `checkDescriptionSimilarity` of IncidentTimeline.tsx / incidentUtils:
falsy argument gives false; clean both; containment either way is similar;
otherwise tokenize and compare `matchCount / min(wordCounts) * 100` with the
30 threshold (stated as the exact rational inequality
`100 * matchCount ≥ 30 * min`; the concrete instances proved here sit far
from the threshold, where the JS float computation agrees). -/
def checkDescriptionSimilarity (desc1 desc2 : List Char) : Bool :=
  if desc1.isEmpty || desc2.isEmpty then false
  else
    let c1 := cleanDesc desc1
    let c2 := cleanDesc desc2
    if jsIncludes c1 c2 || jsIncludes c2 c1 then true
    else
      let w1 := wordTokens c1
      let w2 := wordTokens c2
      if w1.isEmpty || w2.isEmpty then false
      else decide (30 * min w1.length w2.length ≤ 100 * matchCountOf w1 w2)

/-- An active report as drawn into the duplicate scan: the scans only keep
documents with truthy coordinates, so coordinates are present by type;
positions are rationals (degrees). -/
structure GeoReport where
  id : String
  latitude : ℚ
  longitude : ℚ
  incidentType : String
  description : List Char
  deriving DecidableEq, Repr

/-- The per-pair duplicate test of the batch scan
(`fetchAndAnalyzeReports`): exact incident-type equality, then
`distance > 100 → skip`, then similar description or distance under 20
meters. `dist` stands for `calculateDistance` (haversine on the two
coordinate pairs). -/
def batchDuplicateCheck (dist : GeoReport → GeoReport → ℚ)
    (primary candidate : GeoReport) : Bool :=
  if primary.incidentType != candidate.incidentType then false
  else if dist primary candidate > 100 then false
  else
    checkDescriptionSimilarity primary.description candidate.description ||
      dist primary candidate < 20

/-- The per-incident alert test (`checkForDuplicates` in
SmartMergeAlert.tsx): skip self, exact incident-type equality,
`distance > 100 → skip`, then distance under 20 meters or similar
description. -/
def alertDuplicateCheck (dist : GeoReport → GeoReport → ℚ)
    (self candidate : GeoReport) : Bool :=
  if candidate.id == self.id then false
  else if candidate.incidentType != self.incidentType then false
  else if dist self candidate > 100 then false
  else
    dist self candidate < 20 ||
      checkDescriptionSimilarity self.description candidate.description

/-- An entry of a primary report's `mergedReports` array:
`{id: d.id, timestamp: d.timestamp, mergedAt: new Date()}`. -/
structure MergedEntry where
  id : String
  timestamp : Option JSTime
  mergedAt : Int
  deriving DecidableEq, Repr

/-- A stored report document, restricted to the fields the merge execution
reads or writes (plus the cached `isOverdue` flag). -/
structure Report where
  id : String
  description : String
  timestamp : Option JSTime
  reportState : String
  mergedInto : Option String
  mergedAt : Option Int
  mergedReports : List MergedEntry
  isOverdue : Option Bool
  deriving DecidableEq, Repr

/-- The reports collection, keyed by document id. -/
abbrev ReportStore := String → Option Report

/-- `updateDoc` with a field transformer: fails (`none`) when the target
document does not exist, otherwise rewrites it in place. -/
def updateStore (s : ReportStore) (i : String) (f : Report → Report) :
    Option ReportStore :=
  match s i with
  | none => none
  | some r => some (fun j => if j = i then some (f r) else s j)

/-- Firestore `arrayUnion`: append each new element not already present
(exact equality), preserving order. -/
def arrayUnion {α : Type} [DecidableEq α] (old new : List α) : List α :=
  new.foldl (fun acc e => if e ∈ acc then acc else acc ++ [e]) old

/-- The per-source banner `handleMergeGroup` appends to the primary's
description: `--- Merged from #<last 6 of id> ---` plus the source text. -/
def mergeBanner (d : Report) : String :=
  "\n\n--- Merged from #" ++ d.id.takeRight 6 ++ " ---\n" ++ d.description

/-- The per-duplicate field update of `handleMergeGroup`:
`reportState='Merged'`, `mergedInto=primaryId`, `mergedAt=now` — and nothing
else; in particular `isOverdue` is left untouched. -/
def mergeMark (primaryId : String) (now : Int) (r : Report) : Report :=
  { r with reportState := "Merged", mergedInto := some primaryId,
           mergedAt := some now }

/-- The second phase of `handleMergeGroup`: apply `mergeMark` to each
duplicate document in turn; a missing document fails the whole merge. -/
def markMergedAll (primaryId : String) (now : Int) :
    List Report → ReportStore → Option ReportStore
  | [], s => some s
  | d :: rest, s =>
    match updateStore s d.id (mergeMark primaryId now) with
    | none => none
    | some s' => markMergedAll primaryId now rest s'

/-- The primary-document update of `handleMergeGroup`: union the
`{id, timestamp, mergedAt}` entries into `mergedReports` and append the
source banners to the in-memory primary description. -/
def mergePrimaryUpdate (now : Int) (primary : Report) (dups : List Report)
    (r : Report) : Report :=
  { r with
    mergedReports :=
      arrayUnion r.mergedReports (dups.map fun d => ⟨d.id, d.timestamp, now⟩)
    description :=
      primary.description ++ String.join (dups.map mergeBanner) }

/-- `handleMergeGroup` of the Smart Merge dashboard: update the primary, then
mark every duplicate merged. -/
def handleMergeGroup (now : Int) (primary : Report) (dups : List Report)
    (s : ReportStore) : Option ReportStore :=
  match updateStore s primary.id (mergePrimaryUpdate now primary dups) with
  | none => none
  | some s1 => markMergedAll primary.id now dups s1

/-- `Math.round((verifiedReports / reportCount) * 20)` as exact integer
arithmetic on non-negative operands (round half up). -/
def jsRoundTwentyRatio (v rc : Nat) : Int :=
  ((40 * v + rc) / (2 * rc) : Nat)

/-- `calculateTrustLevel` of reporterUtils.ts. `createdAt` is the stored
creation instant when it is a Firestore `Timestamp` (the
`createdAt?.toDate?.() || now` coercion collapses every other shape to
`now`); the formula is base 10, verified-report points, accuracy points,
tenure points, false-report penalty, clamped to 0..100. -/
def calculateTrustLevel (reportCount verifiedReports falseReports : Nat)
    (now : Int) (createdAt : Option Int) : Int :=
  let daysAsContributor : Int :=
    max 1 (Int.fdiv (now - createdAt.getD now) 86400000)
  let t1 : Int := 10 + min 50 (verifiedReports * 5)
  let t2 : Int :=
    if reportCount > 0 then t1 + jsRoundTwentyRatio verifiedReports reportCount
    else t1
  let t3 : Int := t2 + min 10 (Int.fdiv daysAsContributor 30)
  let t4 : Int := t3 - min (t3 - 5) (falseReports * 10)
  max 0 (min 100 t4)

/-- The counter fields of a stored reporter record
(`reporter` / `users` collections). -/
structure ReporterRec where
  reportCount : Option Nat
  verifiedReports : Option Nat
  falseReports : Option Nat
  createdAt : Option Int
  trustLevel : Option Int
  deriving DecidableEq, Repr

/-- The existing-record branch of `updateReporterTrustOnVerification`:
increment `verifiedReports` (and `reportCount` only when the field was
undefined), recompute `calculateTrustLevel`, then store that value plus the
flat `+ 10` completed-incident bonus — with no further clamp. -/
def updateReporterTrustOnVerification (now : Int) (r : ReporterRec) :
    ReporterRec :=
  let verifiedReports := r.verifiedReports.getD 0 + 1
  let reportCount :=
    r.reportCount.getD 0 + (if r.reportCount = none then 1 else 0)
  let falseReports := r.falseReports.getD 0
  let newTrustLevel :=
    calculateTrustLevel reportCount verifiedReports falseReports now r.createdAt
  let trustLevelWithBonus := newTrustLevel + 10
  { r with
    verifiedReports := some verifiedReports
    reportCount := some reportCount
    trustLevel := some trustLevelWithBonus }

/-! Concrete instances used by the counterexamples and witnesses. -/

/-- A streetlight report with coordinates. -/
def geoA : GeoReport :=
  { id := "a1", latitude := 3, longitude := 101,
    incidentType := "Streetlight Out",
    description := "light broken near corner".toList }

/-- A nearby report of a different incident type. -/
def geoB : GeoReport :=
  { id := "b2", latitude := 3, longitude := 101,
    incidentType := "Pothole",
    description := "light broken near corner".toList }

/-- A nearby report of the same incident type as `geoA`, with an unrelated
description. -/
def geoC : GeoReport :=
  { id := "c3", latitude := 3, longitude := 101,
    incidentType := "Streetlight Out",
    description := "completely different words here".toList }

/-- A distance oracle putting every pair fifteen meters apart. -/
def distFifteen : GeoReport → GeoReport → ℚ := fun _ _ => 15

/-- First similarity counterexample description: the token `leak` repeated. -/
def descRepeat : List Char := "leak leak aaaa bbbb".toList

/-- Second similarity counterexample description: shares only `leak`. -/
def descOther : List Char := "leak cccc dddd eeee".toList

/-- A description with pairwise-distinct tokens, for the symmetry witness. -/
def descNodupW : List Char := "road with deep hole".toList

/-- A catalog mapping every incident type to Medium. -/
def catMediumW : String → String := fun _ => "Medium"

/-- A date parser that parses nothing. -/
def parseNoneW : String → Option Int := fun _ => none

/-- A fresh incident document as the reconcile witness input. -/
def docW : IncidentDoc :=
  { severity := none, incidentType := some "Pothole",
    timestamp := some (.fsTimestamp 0), deadline := none,
    reportState := some "New", isOverdue := none }

/-- Witness primary report for the merge theorems. -/
def primW : Report :=
  { id := "p1", description := "pothole on elm", timestamp := some (.fsTimestamp 10),
    reportState := "New", mergedInto := none, mergedAt := none,
    mergedReports := [], isOverdue := some false }

/-- Witness duplicate report; it carries a stale `isOverdue = true`. -/
def dupW : Report :=
  { id := "d1", description := "pothole again", timestamp := some (.fsTimestamp 20),
    reportState := "Overdue", mergedInto := none, mergedAt := none,
    mergedReports := [], isOverdue := some true }

/-- Witness store holding exactly the primary and the duplicate. -/
def storeW : ReportStore := fun j =>
  if j = "p1" then some primW else if j = "d1" then some dupW else none

/-- Reporter record for the trust-update evaluation: one tracked report,
nine of them verified. -/
def reporterW : ReporterRec :=
  { reportCount := some 1, verifiedReports := some 9, falseReports := some 0,
    createdAt := some 0, trustLevel := some 50 }

/-! Theorems. -/

/-- C7: the type-based severity derivation on read never overwrites a
severity that is set and differs from the default `Low`, whatever the
catalog answers. -/
theorem computeSeverity_preserves_elevated (cat : String → String)
    (s : String) (t : Option String) (h0 : s ≠ "") (h1 : s ≠ "Low") :
    computeSeverity cat (some s) t = s := by
  have he : s.isEmpty = false := by
    cases hs : s.isEmpty
    · rfl
    · exact absurd ((String.isEmpty_iff s).mp hs) h0
  have hb : (some s == some "Low") = false := by
    simp [h1]
  simp [computeSeverity, truthyStr, sevOrLow, he, hb]

/-- C7 witness: a `Critical` severity survives even when the catalog maps the
incident's type to `Low`. -/
theorem computeSeverity_preserves_elevated_witness :
    computeSeverity (fun _ => "Low") (some "Critical") (some "Road Damage") =
      "Critical" :=
  computeSeverity_preserves_elevated (fun _ => "Low") "Critical"
    (some "Road Damage") (by decide) (by decide)

/-- C8: for every input whose creation-date coercion yields a valid instant
`T`, `calculateDeadline` returns exactly `T` plus the severity timeframe:
168h for Low, 120h for Medium, 72h for High, 24h for Critical. -/
theorem calculateDeadline_timeframes (parse : String → Option Int)
    (ct : Option JSTime) (T : Int)
    (h : creationDateOf parse ct = some (some T)) :
    calculateDeadline parse ct "Low" = some (some (T + 168 * 3600000)) ∧
    calculateDeadline parse ct "Medium" = some (some (T + 120 * 3600000)) ∧
    calculateDeadline parse ct "High" = some (some (T + 72 * 3600000)) ∧
    calculateDeadline parse ct "Critical" = some (some (T + 24 * 3600000)) := by
  refine ⟨?_, ?_, ?_, ?_⟩ <;>
    simp [calculateDeadline, h, timeframeHoursOf, FALLBACK_TIMEFRAMES]

/-- C8 witness: a Firestore timestamp at instant 0 and severity Critical give
deadline 24h = 86400000 ms. -/
theorem calculateDeadline_timeframes_witness :
    creationDateOf parseNoneW (some (.fsTimestamp 0)) = some (some 0) ∧
    calculateDeadline parseNoneW (some (.fsTimestamp 0)) "Critical" =
      some (some (0 + 24 * 3600000)) :=
  ⟨rfl,
    (calculateDeadline_timeframes parseNoneW (some (.fsTimestamp 0)) 0 rfl).2.2.2⟩

/-- C9 counterexample: a non-empty string that the date parser rejects does
not give `null` — `calculateDeadline` returns an Invalid-Date result. -/
theorem calculateDeadline_unparseable_string_counterexample :
    calculateDeadline parseNoneW (some (.str "garbage")) "Low" = some none ∧
    calculateDeadline parseNoneW (some (.str "garbage")) "Low" ≠ none := by
  decide

/-- C9 amended: `calculateDeadline` returns `null` for an absent creation
value, an unrecognised shape, an empty string and a falsy `{seconds: 0}`
object; but a non-empty unparseable string yields an Invalid-Date result,
not `null`. -/
theorem calculateDeadline_null_cases (parse : String → Option Int)
    (sev : String) (s : String) (hp : parse s = none) (hs : s ≠ "") :
    calculateDeadline parse none sev = none ∧
    calculateDeadline parse (some .otherVal) sev = none ∧
    calculateDeadline parse (some (.str "")) sev = none ∧
    calculateDeadline parse (some (.secondsShape 0)) sev = none ∧
    calculateDeadline parse (some (.str s)) sev = some none := by
  have he : s.isEmpty = false := by
    cases h : s.isEmpty
    · rfl
    · exact absurd ((String.isEmpty_iff s).mp h) hs
  refine ⟨rfl, rfl, rfl, by simp [calculateDeadline, creationDateOf], ?_⟩
  simp [calculateDeadline, creationDateOf, jsTruthyTime, he, hp]

/-- C9 amended witness at a parser that rejects everything and the string
`"garbage"`. -/
theorem calculateDeadline_null_cases_witness :
    calculateDeadline parseNoneW none "Low" = none ∧
    calculateDeadline parseNoneW (some .otherVal) "Low" = none ∧
    calculateDeadline parseNoneW (some (.str "")) "Low" = none ∧
    calculateDeadline parseNoneW (some (.secondsShape 0)) "Low" = none ∧
    calculateDeadline parseNoneW (some (.str "garbage")) "Low" = some none :=
  calculateDeadline_null_cases parseNoneW "Low" "garbage" rfl (by decide)

/-- C10 counterexample: the severity string `"toString"` is outside the
table, yet the bracket lookup reaches the inherited `Object.prototype`
method — a truthy value, so `|| 24` does not fire, the multiplication gives
NaN, and the result is an Invalid Date rather than T plus 24 hours. -/
theorem calculateDeadline_unknown_severity_counterexample :
    ("toString" : String) ≠ "Low" ∧ ("toString" : String) ≠ "Medium" ∧
    ("toString" : String) ≠ "High" ∧ ("toString" : String) ≠ "Critical" ∧
    calculateDeadline parseNoneW (some (.fsTimestamp 0)) "toString" =
      some none ∧
    calculateDeadline parseNoneW (some (.fsTimestamp 0)) "toString" ≠
      some (some (0 + 24 * 3600000)) := by
  decide

/-- C10 amended: for a parseable creation time, a severity outside the table
that is not an `Object.prototype` property name falls back to the 24-hour
timeframe — the same as Critical, not the Low default; a severity equal to
one of the prototype property names instead picks up the truthy inherited
value and yields an Invalid Date. -/
theorem calculateDeadline_unknown_severity (parse : String → Option Int)
    (ct : Option JSTime) (T : Int) (sev : String)
    (h : creationDateOf parse ct = some (some T))
    (h1 : sev ≠ "Low") (h2 : sev ≠ "Medium") (h3 : sev ≠ "High")
    (h4 : sev ≠ "Critical") :
    (sev ∉ objectPrototypeKeys →
      calculateDeadline parse ct sev = some (some (T + 24 * 3600000))) ∧
    (sev ∈ objectPrototypeKeys →
      calculateDeadline parse ct sev = some none) := by
  constructor
  · intro h5
    simp [calculateDeadline, h, timeframeHoursOf, FALLBACK_TIMEFRAMES,
      h1, h2, h3, h4, h5]
  · intro h5
    simp [calculateDeadline, h, timeframeHoursOf, FALLBACK_TIMEFRAMES,
      h1, h2, h3, h4, h5]

/-- C10 amended witness at the empty severity string (not a prototype
property name) and at `"valueOf"` (one). -/
theorem calculateDeadline_unknown_severity_witness :
    calculateDeadline parseNoneW (some (.fsTimestamp 0)) "" =
      some (some (0 + 24 * 3600000)) ∧
    calculateDeadline parseNoneW (some (.fsTimestamp 0)) "valueOf" =
      some none :=
  ⟨(calculateDeadline_unknown_severity parseNoneW (some (.fsTimestamp 0)) 0 ""
      rfl (by decide) (by decide) (by decide) (by decide)).1 (by decide),
   (calculateDeadline_unknown_severity parseNoneW (some (.fsTimestamp 0)) 0
      "valueOf" rfl (by decide) (by decide) (by decide) (by decide)).2
      (by decide)⟩

/-- C5: evaluating the verification update on a reporter with one tracked
report and nine verified ones stores trust level 110 — the formula result is
clamped to 100, the flat bonus is added afterwards, and no final clamp
exists, contradicting the claimed ≤ 100 bound. -/
theorem trust_on_verification_stores_110 :
    (updateReporterTrustOnVerification 0 reporterW).trustLevel = some 110 ∧
    ¬ (110 : Int) ≤ 100 := by
  decide

/-- C1 counterexample: two distinct active reports fifteen meters apart but
of different incident types are rejected by both duplicate checkers — the
very-close-proximity override does not bypass the type-equality test. -/
theorem duplicate_candidate_counterexample :
    distFifteen geoA geoB < 20 ∧ geoA.id ≠ geoB.id ∧
    batchDuplicateCheck distFifteen geoA geoB = false ∧
    alertDuplicateCheck distFifteen geoA geoB = false := by
  refine ⟨by norm_num [distFifteen], by decide, ?_, ?_⟩ <;> rfl

/-- C1 amended: for two distinct reports with coordinates whose incident-type
strings are exactly equal, a distance below 20 meters alone qualifies the
candidate in both the batch scan and the per-incident alert, regardless of
description similarity. -/
theorem duplicate_candidate_proximity_within_type
    (dist : GeoReport → GeoReport → ℚ) (p c : GeoReport)
    (ht : p.incidentType = c.incidentType) (hid : c.id ≠ p.id)
    (hd : dist p c < 20) :
    batchDuplicateCheck dist p c = true ∧
    alertDuplicateCheck dist p c = true := by
  have h100 : ¬ dist p c > 100 := by linarith
  constructor
  · simp [batchDuplicateCheck, ht, h100, hd]
  · simp [alertDuplicateCheck, ht, hid, h100, hd]

/-- C1 amended witness: same-type reports fifteen meters apart with unrelated
descriptions match in both checkers. -/
theorem duplicate_candidate_proximity_within_type_witness :
    (geoA.incidentType = geoC.incidentType ∧ geoC.id ≠ geoA.id ∧
      distFifteen geoA geoC < 20) ∧
    batchDuplicateCheck distFifteen geoA geoC = true ∧
    alertDuplicateCheck distFifteen geoA geoC = true :=
  ⟨⟨rfl, by decide, by norm_num [distFifteen]⟩,
    duplicate_candidate_proximity_within_type distFifteen geoA geoC rfl
      (by decide) (by norm_num [distFifteen])⟩

/-- Elements of the new list always end up in the Firestore array union. -/
theorem mem_arrayUnion_of_mem_new {α : Type} [DecidableEq α]
    (old new : List α) (e : α) (he : e ∈ new) :
    e ∈ arrayUnion old new := by
  suffices h : ∀ (l acc : List α), e ∈ acc ∨ e ∈ l →
      e ∈ l.foldl (fun acc x => if x ∈ acc then acc else acc ++ [x]) acc by
    exact h new old (Or.inr he)
  intro l
  induction l with
  | nil =>
    intro acc h
    simpa using h.resolve_right (by simp)
  | cons a t ih =>
    intro acc h
    simp only [List.foldl_cons]
    apply ih
    rcases h with h | h
    · left
      split
      · exact h
      · exact List.mem_append_left _ h
    · rcases List.mem_cons.mp h with rfl | h
      · left
        split
        · assumption
        · simp
      · right
        exact h

/-- `markMergedAll` keeps every stored document present, never changes a
document's `mergedReports`, and only ever rewrites a document with
`mergeMark`. -/
theorem markMergedAll_preserves (pid : String) (now : Int) :
    ∀ (L : List Report) (s s' : ReportStore),
      markMergedAll pid now L s = some s' →
      ∀ j r, s j = some r →
        ∃ r', s' j = some r' ∧ r'.mergedReports = r.mergedReports ∧
          (r' = r ∨ (r'.reportState = "Merged" ∧ r'.mergedInto = some pid)) := by
  intro L
  induction L with
  | nil =>
    intro s s' h j r hr
    simp only [markMergedAll] at h
    cases h
    exact ⟨r, hr, rfl, Or.inl rfl⟩
  | cons d t ih =>
    intro s s' h j r hr
    simp only [markMergedAll] at h
    cases hu : updateStore s d.id (mergeMark pid now) with
    | none => rw [hu] at h; cases h
    | some s1 =>
      rw [hu] at h
      unfold updateStore at hu
      cases hs : s d.id with
      | none => rw [hs] at hu; cases hu
      | some r0 =>
        rw [hs] at hu
        injection hu with hu1
        by_cases hj : j = d.id
        · have hrr : r0 = r := Option.some.inj (hs.symm.trans (hj ▸ hr))
          subst hrr
          have h1 : s1 j = some (mergeMark pid now r0) := by
            rw [← hu1]
            simp [hj]
          obtain ⟨r', hr', hm, hp⟩ := ih s1 s' h j _ h1
          refine ⟨r', hr', hm, Or.inr ?_⟩
          rcases hp with rfl | hp
          · exact ⟨rfl, rfl⟩
          · exact hp
        · have h1 : s1 j = some r := by
            rw [← hu1]
            simp [hj, hr]
          obtain ⟨r', hr', hm, hp⟩ := ih s1 s' h j r h1
          exact ⟨r', hr', hm, hp⟩

/-- Every duplicate processed by `markMergedAll` ends up stored with
`reportState = "Merged"` and `mergedInto = pid`. -/
theorem markMergedAll_marks (pid : String) (now : Int) :
    ∀ (L : List Report) (s s' : ReportStore),
      markMergedAll pid now L s = some s' →
      ∀ d ∈ L, ∃ r', s' d.id = some r' ∧ r'.reportState = "Merged" ∧
        r'.mergedInto = some pid := by
  intro L
  induction L with
  | nil =>
    intro s s' _ d hd
    cases hd
  | cons d0 t ih =>
    intro s s' h d hd
    simp only [markMergedAll] at h
    cases hu : updateStore s d0.id (mergeMark pid now) with
    | none => rw [hu] at h; cases h
    | some s1 =>
      rw [hu] at h
      rcases List.mem_cons.mp hd with rfl | hdt
      · unfold updateStore at hu
        cases hs : s d.id with
        | none => rw [hs] at hu; cases hu
        | some r0 =>
          rw [hs] at hu
          injection hu with hu1
          have h1 : s1 d.id = some (mergeMark pid now r0) := by
            rw [← hu1]
            simp
          obtain ⟨r', hr', _, hp⟩ :=
            markMergedAll_preserves pid now t s1 s' h d.id _ h1
          refine ⟨r', hr', ?_⟩
          rcases hp with rfl | hp
          · exact ⟨rfl, rfl⟩
          · exact hp
      · exact ih s1 s' h d hdt

/-- C6: after a successful merge, the target's `mergedReports` carries the
`{id, timestamp, mergedAt}` entry of every source, and every source is stored
with `status = Merged` and `mergedInto` pointing at the target. -/
theorem handleMergeGroup_reciprocity (now : Int) (primary : Report)
    (dups : List Report) (s s' : ReportStore)
    (h : handleMergeGroup now primary dups s = some s') :
    ∀ d ∈ dups,
      (∃ r, s' primary.id = some r ∧
        (⟨d.id, d.timestamp, now⟩ : MergedEntry) ∈ r.mergedReports) ∧
      (∃ rd, s' d.id = some rd ∧ rd.reportState = "Merged" ∧
        rd.mergedInto = some primary.id) := by
  intro d hd
  simp only [handleMergeGroup] at h
  cases hu : updateStore s primary.id (mergePrimaryUpdate now primary dups) with
  | none => rw [hu] at h; cases h
  | some s1 =>
    rw [hu] at h
    unfold updateStore at hu
    cases hs : s primary.id with
    | none => rw [hs] at hu; cases hu
    | some r0 =>
      rw [hs] at hu
      injection hu with hu1
      have h1 : s1 primary.id = some (mergePrimaryUpdate now primary dups r0) := by
        rw [← hu1]
        simp
      constructor
      · obtain ⟨r', hr', hm, _⟩ :=
          markMergedAll_preserves primary.id now dups s1 s' h primary.id _ h1
        refine ⟨r', hr', ?_⟩
        rw [hm]
        exact mem_arrayUnion_of_mem_new _ _ _
          (List.mem_map_of_mem (fun d => (⟨d.id, d.timestamp, now⟩ : MergedEntry)) hd)
      · exact markMergedAll_marks primary.id now dups s1 s' h d hd

/-- C6 witness: merging `dupW` into `primW` in the two-document store
satisfies both reciprocity conclusions. -/
theorem handleMergeGroup_reciprocity_witness :
    ∃ s', handleMergeGroup 99 primW [dupW] storeW = some s' ∧
      ((∃ r, s' primW.id = some r ∧
          (⟨dupW.id, dupW.timestamp, 99⟩ : MergedEntry) ∈ r.mergedReports) ∧
       (∃ rd, s' dupW.id = some rd ∧ rd.reportState = "Merged" ∧
          rd.mergedInto = some primW.id)) :=
  ⟨_, rfl, handleMergeGroup_reciprocity 99 primW [dupW] storeW _ rfl dupW
    (List.mem_singleton.mpr rfl)⟩

/-- C3: the pure overdue computation is false for every Completed or Merged
status regardless of deadline; but the merge execution, which sets a source's
status to Merged, leaves the persisted `isOverdue` field untouched — a source
merged while `isOverdue = true` stays `true`. -/
theorem isOverdue_terminal_and_merge_keeps_flag :
    (∀ (now : Int) (dl : Option JSTime),
        isOverdue now dl "Completed" = false ∧
        isOverdue now dl "Merged" = false) ∧
    (∃ s', handleMergeGroup 99 primW [dupW] storeW = some s' ∧
        ∃ r, s' "d1" = some r ∧ r.reportState = "Merged" ∧
          r.isOverdue = some true) := by
  refine ⟨fun now dl => ⟨rfl, rfl⟩, ⟨_, rfl, _, rfl, rfl, rfl⟩⟩

/-- C4 counterexample: with the token `leak` repeated in the first
description, the 30% threshold is met in one direction (2 matches of 4
minimum words) but not in the other (1 of 4) — similarity is not
symmetric. -/
theorem checkDescriptionSimilarity_asymmetry_counterexample :
    checkDescriptionSimilarity descRepeat descOther = true ∧
    checkDescriptionSimilarity descOther descRepeat = false := by
  constructor <;> rfl

/-- With duplicate-free token lists the match count is symmetric: both
directions count the intersection of the token sets. -/
theorem matchCountOf_comm_of_nodup (w1 w2 : List (List Char))
    (h1 : w1.Nodup) (h2 : w2.Nodup) :
    matchCountOf w1 w2 = matchCountOf w2 w1 := by
  have key : ∀ (a b : List (List Char)), a.Nodup →
      matchCountOf a b = (a.toFinset ∩ b.toFinset).card := by
    intro a b ha
    unfold matchCountOf
    rw [← List.toFinset_card_of_nodup (ha.filter _)]
    congr 1
    rw [List.toFinset_filter]
    ext x
    simp
  rw [key w1 w2 h1, key w2 w1 h2, Finset.inter_comm]

/-- C4 amended: `checkDescriptionSimilarity` is symmetric whenever neither
description has a repeated token among its words of more than three
characters (the falsy checks, the containment check and the threshold are all
symmetric then); with a repeated token the match count depends on argument
order, as the counterexample shows. -/
theorem checkDescriptionSimilarity_symm_of_nodup (d1 d2 : List Char)
    (h1 : (wordTokens (cleanDesc d1)).Nodup)
    (h2 : (wordTokens (cleanDesc d2)).Nodup) :
    checkDescriptionSimilarity d1 d2 = checkDescriptionSimilarity d2 d1 := by
  simp only [checkDescriptionSimilarity]
  rw [Bool.or_comm d2.isEmpty d1.isEmpty,
    Bool.or_comm (jsIncludes (cleanDesc d2) (cleanDesc d1))
      (jsIncludes (cleanDesc d1) (cleanDesc d2)),
    Bool.or_comm (wordTokens (cleanDesc d2)).isEmpty
      (wordTokens (cleanDesc d1)).isEmpty,
    Nat.min_comm (wordTokens (cleanDesc d2)).length
      (wordTokens (cleanDesc d1)).length,
    matchCountOf_comm_of_nodup _ _ h2 h1]

/-- C4 amended witness: two duplicate-free descriptions compare
symmetrically. -/
theorem checkDescriptionSimilarity_symm_of_nodup_witness :
    ((wordTokens (cleanDesc descOther)).Nodup ∧
      (wordTokens (cleanDesc descNodupW)).Nodup) ∧
    checkDescriptionSimilarity descOther descNodupW =
      checkDescriptionSimilarity descNodupW descOther :=
  ⟨⟨by decide, by decide⟩,
    checkDescriptionSimilarity_symm_of_nodup descOther descNodupW
      (by decide) (by decide)⟩

/-- `d.severity || 'Low'` is never the empty string. -/
theorem sevOrLow_isEmpty (sf : Option String) : (sevOrLow sf).isEmpty = false := by
  cases sf with
  | none => rfl
  | some s =>
    show (if s.isEmpty = true then "Low" else s).isEmpty = false
    cases hs : s.isEmpty
    · simp [hs]
    · rfl

/-- `sevOrLow` absorbs its own (always truthy) output. -/
theorem sevOrLow_idem (sf : Option String) :
    sevOrLow (some (sevOrLow sf)) = sevOrLow sf := by
  show (if (sevOrLow sf).isEmpty = true then "Low" else sevOrLow sf) =
    sevOrLow sf
  rw [sevOrLow_isEmpty sf]
  simp

/-- Running the severity derivation again on its own output changes
nothing. -/
theorem computeSeverity_stable (cat : String → String) (sf tf : Option String) :
    computeSeverity cat (some (computeSeverity cat sf tf)) tf =
      computeSeverity cat sf tf := by
  by_cases hc : ((!truthyStr sf || sf == some "Low") && truthyStr tf) = true
  · have htf : truthyStr tf = true := (Bool.and_eq_true _ _ |>.mp hc).2
    have houter : computeSeverity cat sf tf = cat (tf.getD "") := by
      unfold computeSeverity
      rw [if_pos hc]
    rw [houter]
    by_cases h2 : ((!truthyStr (some (cat (tf.getD ""))) ||
        (some (cat (tf.getD "")) == some "Low")) && truthyStr tf) = true
    · unfold computeSeverity
      rw [if_pos h2]
    · unfold computeSeverity
      rw [if_neg h2]
      have hA : (!truthyStr (some (cat (tf.getD ""))) ||
          (some (cat (tf.getD "")) == some "Low")) = false := by
        cases hq : (!truthyStr (some (cat (tf.getD ""))) ||
            (some (cat (tf.getD "")) == some "Low"))
        · rfl
        · exact absurd (by rw [hq, htf]; rfl) h2
      have hE : (cat (tf.getD "")).isEmpty = false := by
        have h3 := (Bool.or_eq_false_iff.mp hA).1
        simp only [truthyStr, Bool.not_eq_false'] at h3
        simpa using h3
      simp [sevOrLow, hE]
  · have houter : computeSeverity cat sf tf = sevOrLow sf := by
      unfold computeSeverity
      rw [if_neg hc]
    rw [houter]
    cases htf : truthyStr tf
    · unfold computeSeverity
      rw [if_neg (by rw [htf]; simp)]
      exact sevOrLow_idem sf
    · have hA : (!truthyStr sf || sf == some "Low") = false := by
        cases hq : (!truthyStr sf || sf == some "Low")
        · rfl
        · exact absurd (by rw [hq, htf]; rfl) hc
      have hsf : truthyStr sf = true := by
        have h3 := (Bool.or_eq_false_iff.mp hA).1
        simpa using h3
      have hlow : (sf == some "Low") = false := (Bool.or_eq_false_iff.mp hA).2
      obtain ⟨s, rfl⟩ : ∃ s, sf = some s := by
        cases sf with
        | none => exact absurd hsf (by simp [truthyStr])
        | some s => exact ⟨s, rfl⟩
      have hse : s.isEmpty = false := by
        simpa [truthyStr] using hsf
      have hsl : s ≠ "Low" := by
        simpa using hlow
      have hM : sevOrLow (some s) = s := by
        simp [sevOrLow, hse]
      rw [hM]
      unfold computeSeverity
      rw [if_neg ?_]
      · simp [sevOrLow, hse]
      · rw [htf]
        simp [truthyStr, hse, hsl]

/-- Applying the empty patch changes nothing. -/
theorem applyPatch_empty (d : IncidentDoc) :
    applyPatch ReconPatch.empty d = d := rfl

/-- After applying a produced patch, the stored severity equals the computed
one (written when it changed, already equal otherwise). -/
theorem patched_severity (cat : String → String) (parse : String → Option Int)
    (now : Int) (d : IncidentDoc) :
    (applyPatch (reconPatchOf cat parse now d) d).severity =
      some (reconSeverity cat d) := by
  unfold applyPatch reconPatchOf
  by_cases h : reconNuSev cat d = true
  · simp [h]
  · have hb : reconNuSev cat d = false := by
      cases hq : reconNuSev cat d
      · rfl
      · exact absurd hq h
    have he : some (reconSeverity cat d) = d.severity := by
      have := hb
      unfold reconNuSev at this
      simpa using this
    simp [hb, ← he]

/-- Re-deriving severity on the patched document gives the same severity. -/
theorem patched_reconSeverity (cat : String → String)
    (parse : String → Option Int) (now : Int) (d : IncidentDoc) :
    reconSeverity cat (applyPatch (reconPatchOf cat parse now d) d) =
      reconSeverity cat d := by
  unfold reconSeverity
  rw [patched_severity cat parse now d,
    show (applyPatch (reconPatchOf cat parse now d) d).incidentType =
      d.incidentType from rfl]
  exact computeSeverity_stable cat d.severity d.incidentType

/-- Recomputing the deadline on the patched document gives the same
deadline (the timestamp is never written, the severity is stable). -/
theorem patched_reconDeadline (cat : String → String)
    (parse : String → Option Int) (now : Int) (d : IncidentDoc) :
    reconDeadline cat parse (applyPatch (reconPatchOf cat parse now d) d) =
      reconDeadline cat parse d := by
  unfold reconDeadline
  rw [patched_reconSeverity cat parse now d,
    show (applyPatch (reconPatchOf cat parse now d) d).timestamp =
      d.timestamp from rfl]

/-- `status0Of` never yields the empty string. -/
theorem status0Of_isEmpty (d : IncidentDoc) :
    (status0Of d).isEmpty = false := by
  unfold status0Of
  cases d.reportState with
  | none => rfl
  | some s =>
    show (if s.isEmpty = true then "New" else s).isEmpty = false
    cases hs : s.isEmpty
    · simp [hs]
    · rfl

/-- The status written by reconcile is never the empty string. -/
theorem reconStatus1_isEmpty (cat : String → String)
    (parse : String → Option Int) (now : Int) (d : IncidentDoc) :
    (reconStatus1 cat parse now d).isEmpty = false := by
  unfold reconStatus1
  split
  · exact status0Of_isEmpty d
  · split
    · rfl
    · split
      · rfl
      · exact status0Of_isEmpty d

/-- The raw status of the patched document is the status reconcile wrote. -/
theorem patched_status0 (cat : String → String) (parse : String → Option Int)
    (now : Int) (d : IncidentDoc) :
    status0Of (applyPatch (reconPatchOf cat parse now d) d) =
      reconStatus1 cat parse now d := by
  show (if (reconStatus1 cat parse now d).isEmpty = true then "New"
      else reconStatus1 cat parse now d) = reconStatus1 cat parse now d
  rw [reconStatus1_isEmpty cat parse now d]
  simp

/-- The overdue test ignores the status except through the terminal check. -/
theorem isOverdue_congr_nonterminal (now : Int) (dl : Option JSTime)
    {a b : String} (ha : isTerminalStatus a = false)
    (hb : isTerminalStatus b = false) :
    isOverdue now dl a = isOverdue now dl b := by
  unfold isOverdue
  rw [ha, hb]

/-- On a non-terminal document the status reconcile writes is again
non-terminal. -/
theorem reconStatus1_nonterminal (cat : String → String)
    (parse : String → Option Int) (now : Int) (d : IncidentDoc)
    (h : isTerminalStatus (status0Of d) = false) :
    isTerminalStatus (reconStatus1 cat parse now d) = false := by
  unfold reconStatus1
  rw [h]
  simp only [Bool.false_eq_true, if_false]
  split
  · rfl
  · split
    · rfl
    · exact h

/-- On a terminal document reconcile leaves the status unchanged. -/
theorem reconStatus1_terminal (cat : String → String)
    (parse : String → Option Int) (now : Int) (d : IncidentDoc)
    (h : isTerminalStatus (status0Of d) = true) :
    reconStatus1 cat parse now d = status0Of d := by
  unfold reconStatus1
  rw [h]
  simp

/-- The recomputed overdue state of the patched non-terminal document equals
the one reconcile used. -/
theorem patched_shouldOv (cat : String → String) (parse : String → Option Int)
    (now : Int) (d : IncidentDoc)
    (h : isTerminalStatus (status0Of d) = false) :
    reconShouldOv cat parse now (applyPatch (reconPatchOf cat parse now d) d) =
      reconShouldOv cat parse now d := by
  unfold reconShouldOv
  rw [patched_reconDeadline cat parse now d, patched_status0 cat parse now d]
  exact isOverdue_congr_nonterminal now _
    (reconStatus1_nonterminal cat parse now d h) h

/-- The severity trigger is off on the patched document. -/
theorem patched_nuSev (cat : String → String) (parse : String → Option Int)
    (now : Int) (d : IncidentDoc) :
    reconNuSev cat (applyPatch (reconPatchOf cat parse now d) d) = false := by
  unfold reconNuSev
  rw [patched_reconSeverity cat parse now d, patched_severity cat parse now d]
  simp

/-- The deadline-drift trigger is off on the patched document, as long as the
computed deadline was not an Invalid Date. -/
theorem patched_nuDl (cat : String → String) (parse : String → Option Int)
    (now : Int) (d : IncidentDoc)
    (hvalid : reconDeadline cat parse d ≠ some none) :
    reconNuDl cat parse (applyPatch (reconPatchOf cat parse now d) d) = false := by
  unfold reconNuDl
  rw [patched_reconDeadline cat parse now d]
  cases hdl : reconDeadline cat parse d with
  | none =>
    simp [deadlineNeedsUpdate]
  | some dlv =>
    cases dlv with
    | none => exact absurd hdl hvalid
    | some m =>
      have hD : (applyPatch (reconPatchOf cat parse now d) d).deadline =
          some (JSTime.fsTimestamp m) := by
        unfold applyPatch reconPatchOf
        rw [hdl]
      rw [hD]
      simp [deadlineNeedsUpdate, existingDeadlineMs, jsTruthyTime]

/-- The overdue-mismatch trigger is off on the patched document. -/
theorem patched_nuOv (cat : String → String) (parse : String → Option Int)
    (now : Int) (d : IncidentDoc) :
    reconNuOv cat parse now (applyPatch (reconPatchOf cat parse now d) d) =
      false := by
  have hflag : (applyPatch (reconPatchOf cat parse now d) d).isOverdue =
      some (reconFlag cat parse now d) := rfl
  unfold reconNuOv
  rw [patched_status0 cat parse now d, hflag]
  cases ht : isTerminalStatus (status0Of d) with
  | true =>
    rw [reconStatus1_terminal cat parse now d ht, ht]
    rfl
  | false =>
    rw [reconStatus1_nonterminal cat parse now d ht,
      patched_shouldOv cat parse now d ht]
    have : reconFlag cat parse now d = reconShouldOv cat parse now d := by
      unfold reconFlag
      rw [ht]
      simp
    rw [this]
    simp

/-- The status-transition trigger is off on the patched document. -/
theorem patched_nuStatus (cat : String → String) (parse : String → Option Int)
    (now : Int) (d : IncidentDoc) :
    reconNuStatus cat parse now (applyPatch (reconPatchOf cat parse now d) d) =
      false := by
  unfold reconNuStatus
  rw [patched_status0 cat parse now d]
  cases ht : isTerminalStatus (status0Of d) with
  | true =>
    rw [reconStatus1_terminal cat parse now d ht, ht]
    rfl
  | false =>
    rw [reconStatus1_nonterminal cat parse now d ht,
      patched_shouldOv cat parse now d ht]
    cases hb : reconShouldOv cat parse now d with
    | true =>
      have h1 : reconStatus1 cat parse now d = "Overdue" := by
        unfold reconStatus1
        rw [ht, hb]
        simp
      rw [h1]
      simp
    | false =>
      have h1 : (reconStatus1 cat parse now d == "Overdue") = false := by
        unfold reconStatus1
        rw [ht, hb]
        cases hov : (status0Of d == "Overdue") <;> simp [hov]
      simp [h1]

/-- C2: the reconcile pass is idempotent — applying the produced patch and
reconciling again at the same instant, with the same catalog and parser,
yields the empty patch. -/
theorem reconcile_idempotent (cat : String → String)
    (parse : String → Option Int) (now : Int) (d : IncidentDoc)
    (p : ReconPatch) (h : reconcile cat parse now d = some p) :
    reconcile cat parse now (applyPatch p d) = some ReconPatch.empty := by
  unfold reconcile at h
  by_cases hn : reconNeeds cat parse now d = true
  · rw [if_pos hn] at h
    have hvalid : reconDeadline cat parse d ≠ some none := by
      intro hd
      rw [hd] at h
      cases h
    have hp : p = reconPatchOf cat parse now d := by
      cases hdl : reconDeadline cat parse d with
      | none =>
        rw [hdl] at h
        exact (Option.some.inj h).symm
      | some dlv =>
        cases dlv with
        | none => exact absurd hdl hvalid
        | some m =>
          rw [hdl] at h
          exact (Option.some.inj h).symm
    subst hp
    have hneeds : reconNeeds cat parse now
        (applyPatch (reconPatchOf cat parse now d) d) = false := by
      unfold reconNeeds
      rw [patched_nuSev cat parse now d, patched_nuDl cat parse now d hvalid,
        patched_nuOv cat parse now d, patched_nuStatus cat parse now d]
      rfl
    unfold reconcile
    rw [hneeds]
    simp
  · rw [if_neg hn] at h
    have hp : p = ReconPatch.empty := (Option.some.inj h).symm
    subst hp
    rw [applyPatch_empty]
    unfold reconcile
    have hb : reconNeeds cat parse now d = false := by
      cases hq : reconNeeds cat parse now d
      · rfl
      · exact absurd hq hn
    rw [hb]
    simp

/-- C2 witness: a fresh `New` document with unset severity produces a patch,
and reconciling the patched document produces the empty patch. -/
theorem reconcile_idempotent_witness :
    ∃ p, reconcile catMediumW parseNoneW 1000 docW = some p ∧
      reconcile catMediumW parseNoneW 1000 (applyPatch p docW) =
        some ReconPatch.empty :=
  ⟨_, rfl, reconcile_idempotent catMediumW parseNoneW 1000 docW _ rfl⟩

end CityFix
